import Mathlib

/-!
Shallow embedding of the Bitcoin transaction-output builder
(`src/rust/tw_bitcoin/src/modules/transactions/output_builder.rs`).

Bytes are modelled as `List Nat` (each entry a byte value).  Rust `Result`
plus the possibility of a process abort (`unwrap` / `expect` / `todo!` on
the failure side) is modelled by the `Outcome` type below: `.ok` and `.err`
are the two sides of `Result`, `.panic` is a process abort, which is not a
value returned to the caller.

External collaborators (hashing, secp256k1 point validation, the BIP341
taproot tweak, the address codec, and the two inscription-envelope
constructors) are not part of the translated source file; following the
specification they are abstracted into an `Env` record of primitive
operations, plus a concrete executable model instance used for witnesses.
-/

namespace WalletCore

/-- Proto error codes used by the output builder (`Proto::Error` values that
appear in the translated source, plus the ticker error produced by
`Brc20Ticker::new`). -/
inductive Err where
  | missing_recipient
  | missing_output_builder
  | invalid_redeem_script
  | invalid_witness_redeem_script
  | invalid_pubkey_hash
  | invalid_witness_pubkey_hash
  | invalid_public_key
  | invalid_taproot_root
  | bad_address_recipient
  | unsupported_address_recipient
  | invalid_brc20_ticker
  deriving DecidableEq, Repr

/-- Rust `Result` together with process aborts: `.panic` models a call of
`unwrap`/`expect`/`todo!` hitting its failure case, which terminates the
process instead of returning to the caller. -/
inductive Outcome (α : Type) where
  | ok (a : α)
  | err (e : Err)
  | panic
  deriving DecidableEq, Repr

/-- The `?` operator: errors and panics propagate, `.ok` continues. -/
def Outcome.bind {α β : Type} : Outcome α → (α → Outcome β) → Outcome β
  | .ok a, f => f a
  | .err e, _ => .err e
  | .panic, _ => .panic

/-- `Proto::mod_Output::RedeemScriptOrHash` (oneof variant). -/
inductive RedeemScriptOrHash where
  | hash (h : List Nat)
  | redeem_script (s : List Nat)
  | none
  deriving DecidableEq, Repr

/-- `Proto::mod_ToPublicKeyOrHash::OneOfto_address` (oneof variant). -/
inductive PubkeyOrHash where
  | hash (h : List Nat)
  | pubkey (k : List Nat)
  | none
  deriving DecidableEq, Repr

/-- Payload of `Proto::mod_Output::OutputTaprootScriptPath`. -/
structure TaprootScriptPath where
  public_key : List Nat
  node_hash : List Nat
  deriving DecidableEq, Repr

/-- Payload of the `ordinal_inscribe` builder variant. -/
structure OrdinalParams where
  inscribe_to : List Nat
  mime_type : String
  payload : List Nat
  deriving DecidableEq, Repr

/-- Payload of the `brc20_inscribe` builder variant. -/
structure Brc20Params where
  inscribe_to : List Nat
  ticker : String
  transfer_amount : Nat
  deriving DecidableEq, Repr

/-- `Proto::mod_Output::OneOfvariant`: the builder variants. -/
inductive BuilderVariant where
  | p2sh (v : RedeemScriptOrHash)
  | p2pkh (v : PubkeyOrHash)
  | p2wsh (v : RedeemScriptOrHash)
  | p2wpkh (v : PubkeyOrHash)
  | p2tr_key_path (pubkey : List Nat)
  | p2tr_script_path (complex : TaprootScriptPath)
  | ordinal_inscribe (ordinal : OrdinalParams)
  | brc20_inscribe (brc20 : Brc20Params)
  | none
  deriving DecidableEq, Repr

/-- `Proto::mod_Output::Builder`. -/
structure Builder where
  variant : BuilderVariant
  deriving DecidableEq, Repr

/-- `Proto::mod_Output::OneOfto_recipient`. -/
inductive Recipient where
  | script_pubkey (s : List Nat)
  | builder (b : Builder)
  | from_address (a : List Nat)
  | none
  deriving DecidableEq, Repr

/-- `Proto::Output`: amount plus recipient descriptor. -/
structure Output where
  amount : Nat
  to_recipient : Recipient
  deriving DecidableEq, Repr

/-- `Proto::mod_PreSigningOutput::TxOut`.  `control_block` and
`taproot_payload` are byte fields whose empty value is the proto default
(`unwrap_or_default` on the `Option` side of the Rust code). -/
structure TxOut where
  value : Nat
  script_pubkey : List Nat
  control_block : List Nat
  taproot_payload : List Nat
  deriving DecidableEq, Repr

/-- `bitcoin::address::Payload`: the decoded payload of a parsed address. -/
inductive AddrPayload where
  | pubkeyHash (h : List Nat)
  | scriptHash (h : List Nat)
  | witnessProgram (version : Nat) (program : List Nat)
  deriving DecidableEq, Repr

/-- `bitcoin::PublicKey`: a parsed secp256k1 key with its serialized bytes
and the compressed flag (`from_slice` sets it from the input length). -/
structure PublicKey where
  bytes : List Nat
  compressed : Bool
  deriving DecidableEq, Repr

/-- An inscription envelope as produced by `OrdinalNftInscription::new` /
`BRC20TransferInscription::new`: the taproot leaf script
(`taproot_program()`), the committed merkle root (`spend_info().merkle_root()`)
and the serialized control block
(`spend_info().control_block(leaf, TapScript).serialize()`). -/
structure Inscription where
  program : List Nat
  merkleRoot : List Nat
  controlBlock : List Nat
  deriving DecidableEq, Repr

/-- Modelled from the spec: the external collaborators consumed by the
output builder, none of which are part of the translated source file — the
primitive layer (`HASH160(bytes)->20 bytes`, `SHA256(bytes)->32 bytes`,
secp256k1 point validation, BIP341 `taproot_tweak(x_only_key, merkle_root)
-> 32-byte output key`), the address codec
(`parse(text) -> {network, payload} | Error`, returning `Option.none` on
malformed UTF-8, unparsable text, or wrong network), the BRC20 ticker
convention check of `Brc20Ticker::new`, and the two fallible
inscription-envelope constructors (which fail on oversized payloads or
invalid construction). -/
structure Env where
  hash160 : List Nat → List Nat
  sha256 : List Nat → List Nat
  validPoint : List Nat → Bool
  taprootTweak : List Nat → Option (List Nat) → List Nat
  addrParse : List Nat → Option AddrPayload
  tickerValid : String → Bool
  ordinalNew : String → List Nat → List Nat → Option Inscription
  brc20New : List Nat → String → Nat → Option Inscription

/-- `bitcoin::PublicKey::from_slice`: a 33-byte input with an 0x02/0x03
first byte parses as a compressed key, a 65-byte input with an 0x04 first
byte parses as an uncompressed key (in both cases only if the encoding is a
valid curve point); anything else is an invalid public key. -/
def PublicKey.from_slice (E : Env) (bs : List Nat) : Outcome PublicKey :=
  if bs.length = 33 ∧ (bs.head? = some 2 ∨ bs.head? = some 3) ∧ E.validPoint bs then
    .ok ⟨bs, true⟩
  else if bs.length = 65 ∧ bs.head? = some 4 ∧ E.validPoint bs then
    .ok ⟨bs, false⟩
  else
    .err .invalid_public_key

/-- `XOnlyPublicKey::from(pubkey.inner)` serialized: the x coordinate of
the point, i.e. bytes 1..33 of the compressed or uncompressed encoding. -/
def PublicKey.xonly (k : PublicKey) : List Nat :=
  (k.bytes.drop 1).take 32

/-- `PublicKey::pubkey_hash`: HASH160 of the serialized key bytes. -/
def PublicKey.pubkey_hash (E : Env) (k : PublicKey) : List Nat :=
  E.hash160 k.bytes

/-- `PublicKey::wpubkey_hash`: defined only for compressed keys (returns
`None` for an uncompressed key). -/
def PublicKey.wpubkey_hash (E : Env) (k : PublicKey) : Option (List Nat) :=
  if k.compressed then some (E.hash160 k.bytes) else Option.none

/-- `ScriptBuf::new_p2sh`: `OP_HASH160 <push hash> OP_EQUAL`. -/
def new_p2sh (h : List Nat) : List Nat :=
  169 :: h.length :: h ++ [135]

/-- `ScriptBuf::new_p2pkh`: `OP_DUP OP_HASH160 <push hash> OP_EQUALVERIFY
OP_CHECKSIG`. -/
def new_p2pkh (h : List Nat) : List Nat :=
  118 :: 169 :: h.length :: h ++ [136, 172]

/-- `ScriptBuf::new_v0_p2wsh`: version-0 witness program of the 32-byte
script hash: `OP_0 <push hash>`. -/
def new_v0_p2wsh (h : List Nat) : List Nat :=
  0 :: h.length :: h

/-- `ScriptBuf::new_v0_p2wpkh`: version-0 witness program of the 20-byte
key hash: `OP_0 <push hash>`. -/
def new_v0_p2wpkh (h : List Nat) : List Nat :=
  0 :: h.length :: h

/-- `ScriptBuf::new_v1_p2tr`: version-1 witness program of the BIP341
tweaked output key: `OP_PUSHNUM_1 <push 32-byte tweaked key>`. -/
def new_v1_p2tr (E : Env) (xonly : List Nat) (merkle : Option (List Nat)) : List Nat :=
  81 :: 32 :: E.taprootTweak xonly merkle

/-- Convenience variable from the source, solely for readability. -/
def NO_CONTROL_BLOCK : Option (List Nat) := Option.none

/-- Convenience variable from the source, solely for readability. -/
def NO_TAPROOT_PAYLOAD : Option (List Nat) := Option.none

/-- The final `TxOut` record built from the dispatch triple: byte fields
take the proto default (empty) where the `Option` is `None`
(`unwrap_or_default`). -/
def finishTxOut (amount : Nat)
    (t : List Nat × Option (List Nat) × Option (List Nat)) : Outcome TxOut :=
  .ok ⟨amount, t.1, (t.2.1).getD [], (t.2.2).getD []⟩

/-- Helper `redeem_script_or_hash`: a supplied hash must be exactly 20
bytes (`ScriptHash::from_slice`), a supplied redeem script is hashed with
HASH160 (`ScriptBuf::script_hash`), no variant is a missing recipient. -/
def redeem_script_or_hash (E : Env) (script_or_hash : RedeemScriptOrHash) :
    Outcome (List Nat) :=
  match script_or_hash with
  | .hash h => if h.length = 20 then .ok h else .err .invalid_redeem_script
  | .redeem_script s => .ok (E.hash160 s)
  | .none => .err .missing_recipient

/-- Helper `witness_redeem_script_or_hash`: a supplied hash must be
exactly 32 bytes (`WScriptHash::from_slice`), a supplied redeem script is
hashed with SHA256 (`ScriptBuf::wscript_hash`). -/
def witness_redeem_script_or_hash (E : Env) (script_or_hash : RedeemScriptOrHash) :
    Outcome (List Nat) :=
  match script_or_hash with
  | .hash h => if h.length = 32 then .ok h else .err .invalid_witness_redeem_script
  | .redeem_script s => .ok (E.sha256 s)
  | .none => .err .missing_recipient

/-- Helper `pubkey_hash_from_proto`: a supplied hash must be exactly 20
bytes (`PubkeyHash::from_slice`), a supplied pubkey is parsed and hashed
with HASH160 (`PublicKey::pubkey_hash`). -/
def pubkey_hash_from_proto (E : Env) (pubkey_or_hash : PubkeyOrHash) :
    Outcome (List Nat) :=
  match pubkey_or_hash with
  | .hash h => if h.length = 20 then .ok h else .err .invalid_pubkey_hash
  | .pubkey k =>
      (PublicKey.from_slice E k).bind fun pk => .ok (pk.pubkey_hash E)
  | .none => .err .missing_recipient

/-- Helper `witness_pubkey_hash_from_proto`: a supplied hash must be
exactly 20 bytes (`WPubkeyHash::from_slice`), a supplied pubkey is parsed
and hashed with `PublicKey::wpubkey_hash`, whose `None` case (an
uncompressed key) is mapped to `Error_invalid_witness_pubkey_hash`. -/
def witness_pubkey_hash_from_proto (E : Env) (pubkey_or_hash : PubkeyOrHash) :
    Outcome (List Nat) :=
  match pubkey_or_hash with
  | .hash h => if h.length = 20 then .ok h else .err .invalid_witness_pubkey_hash
  | .pubkey k =>
      (PublicKey.from_slice E k).bind fun pk =>
        match pk.wpubkey_hash E with
        | some wh => .ok wh
        | Option.none => .err .invalid_witness_pubkey_hash
  | .none => .err .missing_recipient

/-- `output_from_address`: the address resolver.  The source calls
`String::from_utf8(..).unwrap()`, `Address::from_str(..).unwrap()` and
`.require_network(Bitcoin).unwrap()`; all three failure cases abort the
process, modelled by `.panic` when the codec returns no payload.  The
`Payload::ScriptHash` arm is `todo!()`, also a process abort. -/
def output_from_address (E : Env) (amount : Nat) (addr : List Nat) :
    Outcome Output :=
  match E.addrParse addr with
  | Option.none => .panic
  | some payload =>
    match payload with
    | .pubkeyHash pubkey_hash =>
        .ok ⟨amount, .builder ⟨.p2pkh (.hash pubkey_hash)⟩⟩
    | .witnessProgram version program =>
        if version = 0 then
          if program.length ≠ 20 then .err .bad_address_recipient
          else .ok ⟨amount, .builder ⟨.p2wpkh (.hash program)⟩⟩
        else if version = 1 then
          if program.length ≠ 32 then .err .bad_address_recipient
          else .ok ⟨amount, .builder ⟨.p2tr_key_path program⟩⟩
        else .err .unsupported_address_recipient
    | .scriptHash _ => .panic

/-- Whether a builder variant is one of the two inscription-producing
variants. -/
def isInscribeVariant : BuilderVariant → Bool
  | .ordinal_inscribe _ => true
  | .brc20_inscribe _ => true
  | _ => false

/-- Rank used for the termination measure of the builder dispatch: only an
`Address` recipient causes a recursive call. -/
def recipientRank : Recipient → Nat
  | .from_address _ => 1
  | _ => 0

/-- Every successful resolver result carries a builder recipient, and never
one of the inscription variants. -/
theorem output_from_address_shape (E : Env) (amount : Nat) (addr : List Nat)
    (out : Output) (h : output_from_address E amount addr = .ok out) :
    ∃ b, out.to_recipient = Recipient.builder b ∧ isInscribeVariant b.variant = false := by
  unfold output_from_address at h
  cases hp : E.addrParse addr with
  | none => rw [hp] at h; cases h
  | some payload =>
    rw [hp] at h
    cases payload with
    | pubkeyHash ph => cases h; exact ⟨_, rfl, rfl⟩
    | scriptHash sh => cases h
    | witnessProgram v prog =>
      simp only at h
      split at h
      · split at h
        · cases h
        · cases h; exact ⟨_, rfl, rfl⟩
      · split at h
        · split at h
          · cases h
          · cases h; exact ⟨_, rfl, rfl⟩
        · cases h

theorem output_from_address_rank (E : Env) (amount : Nat) (addr : List Nat)
    (out : Output) (h : output_from_address E amount addr = .ok out) :
    recipientRank out.to_recipient = 0 := by
  obtain ⟨b, hb, -⟩ := output_from_address_shape E amount addr out h
  rw [hb]
  rfl

/-- `OutputBuilder::utxo_from_proto`: dispatch on the recipient kind,
producing the `(script_pubkey, control_block, taproot_payload)` triple and
the final `TxOut`.  The `from_address` arm resolves the address and makes
a recursive call on the resolver output; inscription-envelope construction
failures hit `unwrap`/`expect` and abort the process (`.panic`). -/
def utxo_from_proto (E : Env) : Output → Outcome TxOut
  | ⟨amount, recipient⟩ =>
    match recipient with
    | .script_pubkey script =>
        finishTxOut amount (script, NO_CONTROL_BLOCK, NO_TAPROOT_PAYLOAD)
    | .builder builder =>
      match builder.variant with
      | .p2sh script_or_hash =>
          (redeem_script_or_hash E script_or_hash).bind fun script_hash =>
            finishTxOut amount
              (new_p2sh script_hash, NO_CONTROL_BLOCK, NO_TAPROOT_PAYLOAD)
      | .p2pkh pubkey_or_hash =>
          (pubkey_hash_from_proto E pubkey_or_hash).bind fun pubkey_hash =>
            finishTxOut amount
              (new_p2pkh pubkey_hash, NO_CONTROL_BLOCK, NO_TAPROOT_PAYLOAD)
      | .p2wsh script_or_hash =>
          (witness_redeem_script_or_hash E script_or_hash).bind fun wscript_hash =>
            finishTxOut amount
              (new_v0_p2wsh wscript_hash, NO_CONTROL_BLOCK, NO_TAPROOT_PAYLOAD)
      | .p2wpkh pubkey_or_hash =>
          (witness_pubkey_hash_from_proto E pubkey_or_hash).bind fun wpubkey_hash =>
            finishTxOut amount
              (new_v0_p2wpkh wpubkey_hash, NO_CONTROL_BLOCK, NO_TAPROOT_PAYLOAD)
      | .p2tr_key_path pubkey =>
          (PublicKey.from_slice E pubkey).bind fun pk =>
            finishTxOut amount
              (new_v1_p2tr E pk.xonly Option.none, NO_CONTROL_BLOCK, NO_TAPROOT_PAYLOAD)
      | .p2tr_script_path complex =>
          (if complex.node_hash.length = 32 then .ok complex.node_hash
           else Outcome.err .invalid_taproot_root).bind fun node_hash =>
            (PublicKey.from_slice E complex.public_key).bind fun pk =>
              finishTxOut amount
                (new_v1_p2tr E pk.xonly (some node_hash), NO_CONTROL_BLOCK, NO_TAPROOT_PAYLOAD)
      | .ordinal_inscribe ordinal =>
          (PublicKey.from_slice E ordinal.inscribe_to).bind fun pk =>
            match E.ordinalNew ordinal.mime_type ordinal.payload pk.bytes with
            | Option.none => .panic
            | some nft =>
                finishTxOut amount
                  (new_v1_p2tr E pk.xonly (some nft.merkleRoot),
                   some nft.controlBlock, some nft.program)
      | .brc20_inscribe brc20 =>
          (PublicKey.from_slice E brc20.inscribe_to).bind fun pk =>
            (if E.tickerValid brc20.ticker then .ok brc20.ticker
             else Outcome.err .invalid_brc20_ticker).bind fun ticker =>
              match E.brc20New pk.bytes ticker brc20.transfer_amount with
              | Option.none => .panic
              | some transfer =>
                  finishTxOut amount
                    (new_v1_p2tr E pk.xonly (some transfer.merkleRoot),
                     some transfer.controlBlock, some transfer.program)
      | .none => .err .missing_output_builder
    | .from_address addr =>
      match hres : output_from_address E amount addr with
      | .ok proto => utxo_from_proto E proto
      | .err e => .err e
      | .panic => .panic
    | .none => .err .missing_recipient
termination_by output => recipientRank output.to_recipient
decreasing_by
  have h0 := output_from_address_rank _ _ _ _ hres
  rw [h0]
  simp [recipientRank]

/-- Unfolding of the dispatch at an `Address` recipient: resolve, then
recurse on the resolver result. -/
theorem utxo_from_proto_address (E : Env) (amount : Nat) (addr : List Nat) :
    utxo_from_proto E ⟨amount, .from_address addr⟩ =
      match output_from_address E amount addr with
      | .ok proto => utxo_from_proto E proto
      | .err e => .err e
      | .panic => .panic := by
  rw [utxo_from_proto]
  cases hx : output_from_address E amount addr <;> rfl

/-- Whether the recipient of an output resolves to an inscription-producing
builder variant: directly for a builder recipient, through the address
resolver for an address recipient. -/
def resolvesToInscribe (E : Env) (output : Output) : Bool :=
  match output.to_recipient with
  | .builder b => isInscribeVariant b.variant
  | .from_address addr =>
    match output_from_address E output.amount addr with
    | .ok proto =>
      match proto.to_recipient with
      | .builder b => isInscribeVariant b.variant
      | _ => false
    | _ => false
  | _ => false

/-- Inversion for `Outcome.bind`: a successful bind comes from a successful
first step. -/
theorem Outcome.bind_eq_ok {α β : Type} {o : Outcome α} {f : α → Outcome β}
    {b : β} (h : o.bind f = .ok b) : ∃ a, o = .ok a ∧ f a = .ok b := by
  cases o with
  | ok a => exact ⟨a, rfl, h⟩
  | err e => simp [Outcome.bind] at h
  | panic => simp [Outcome.bind] at h

/-! ### Concrete model instance of the external collaborators

Used to instantiate witnesses; the functions below are executable model
implementations of the external contracts of the spec, not translations of
repository code. -/

/-- Modelled from the spec: model instance of `HASH160(bytes) -> 20 bytes`
(the real implementation, SHA256 followed by RIPEMD160, lives in an
external crate). -/
def modelHash160 (bs : List Nat) : List Nat :=
  List.replicate 19 0 ++ [bs.foldl (fun a b => (a + b) % 256) 0]

/-- Modelled from the spec: model instance of `SHA256(bytes) -> 32 bytes`
(external crate). -/
def modelSha256 (bs : List Nat) : List Nat :=
  List.replicate 31 0 ++ [bs.foldl (fun a b => (a * 3 + b) % 256) 0]

/-- Modelled from the spec: model instance of the BIP341
`taproot_tweak(x_only_key, merkle_root) -> 32-byte output key` primitive
(external crate). -/
def modelTweak (x : List Nat) (m : Option (List Nat)) : List Nat :=
  (List.range 32).map fun i => (x.getD i 0 + (m.getD []).getD i 0 + 1) % 256

/-- Modelled from the spec: model instance of the external address codec
`parse(text) -> {network, payload} | Error`; a handful of concrete byte
strings stand for addresses of each payload kind, everything else fails to
parse. -/
def modelAddrParse (bs : List Nat) : Option AddrPayload :=
  match bs with
  | [1] => some (.pubkeyHash (List.replicate 20 7))
  | [2] => some (.scriptHash (List.replicate 20 7))
  | [3] => some (.witnessProgram 0 (List.replicate 20 9))
  | [4] => some (.witnessProgram 0 [1, 2, 3])
  | [5] => some (.witnessProgram 1 (List.replicate 32 9))
  | [6] => some (.witnessProgram 1 [1])
  | [7] => some (.witnessProgram 2 (List.replicate 20 9))
  | _ => Option.none

/-- Modelled from the spec: model instance of the fixed textual-ticker
convention checked by `Brc20Ticker::new` (a four-character ticker). -/
def modelTickerValid (t : String) : Bool :=
  t.length = 4

/-- Modelled from the spec: model instance of the ordinal-NFT envelope
constructor, failing on an oversized payload (over 520 bytes in the
model). -/
def modelOrdinalNew (mime : String) (payload : List Nat) (pk : List Nat) :
    Option Inscription :=
  if payload.length ≤ 520 then
    some ⟨106 :: payload, List.replicate 32 1, 192 :: pk.take 32⟩
  else
    Option.none

/-- Modelled from the spec: model instance of the BRC20-transfer envelope
constructor. -/
def modelBrc20New (pk : List Nat) (ticker : String) (amount : Nat) :
    Option Inscription :=
  some ⟨106 :: ticker.length :: [amount % 256], List.replicate 32 2, 192 :: pk.take 32⟩

/-- Modelled from the spec: the bundle of model collaborator instances (a
point-validity oracle accepting every well-formed encoding). -/
def modelEnv : Env :=
  ⟨modelHash160, modelSha256, fun _ => true, modelTweak, modelAddrParse,
   modelTickerValid, modelOrdinalNew, modelBrc20New⟩

/-! ### Claims -/

/-- Claim C1 (code evaluated at the failing inputs): for every amount and
every address byte string that the codec rejects (not valid UTF-8, or not
parsing as a Bitcoin address), `output_from_address` does NOT return the
`BadAddressRecipient` error the spec promises — it aborts the process: the
source unwraps `String::from_utf8` and `Address::from_str`. -/
theorem claim_C1_panics (E : Env) (amount : Nat) (addr : List Nat)
    (h : E.addrParse addr = Option.none) :
    output_from_address E amount addr = .panic := by
  unfold output_from_address
  rw [h]

theorem claim_C1_panics_witness :
    modelEnv.addrParse [255] = Option.none ∧
      output_from_address modelEnv 5 [255] = .panic :=
  ⟨rfl, claim_C1_panics modelEnv 5 [255] rfl⟩

/-- Claim C2 (code evaluated at the failing inputs): for every amount and
every address text parsing to a script-hash payload, `output_from_address`
does NOT return `UnsupportedAddressRecipient` — the `Payload::ScriptHash`
arm is `todo!()`, which aborts the process. -/
theorem claim_C2_panics (E : Env) (amount : Nat) (addr : List Nat)
    (h : List Nat) (hp : E.addrParse addr = some (.scriptHash h)) :
    output_from_address E amount addr = .panic := by
  unfold output_from_address
  rw [hp]

theorem claim_C2_panics_witness :
    modelEnv.addrParse [2] = some (.scriptHash (List.replicate 20 7)) ∧
      output_from_address modelEnv 5 [2] = .panic :=
  ⟨rfl, claim_C2_panics modelEnv 5 [2] (List.replicate 20 7) rfl⟩

/-- Claim C8: `build_output` on
`Output{amount=1000, recipient=Builder(P2WPKH(Hash([0;20])))}` succeeds
with `TxOut{value=1000, script_pubkey=0x00 0x14 ‖ [0;20],
control_block empty, taproot_payload empty}`, for any collaborator
environment (the path never consults it). -/
theorem claim_C8_scenario1 (E : Env) :
    utxo_from_proto E ⟨1000, .builder ⟨.p2wpkh (.hash (List.replicate 20 0))⟩⟩
      = .ok ⟨1000, 0 :: 20 :: List.replicate 20 0, [], []⟩ := by
  simp [utxo_from_proto, witness_pubkey_hash_from_proto, new_v0_p2wpkh,
    finishTxOut, NO_CONTROL_BLOCK, NO_TAPROOT_PAYLOAD, Outcome.bind]

/-- Claim C9: for every amount, `build_output` on `Builder(P2SH(None))` —
the P2SH variant with neither a hash nor a redeem script set — fails with
`MissingRecipient` (not `MissingBuilderVariant` nor an invalid-script
error). -/
theorem claim_C9_p2sh_none (E : Env) (amount : Nat) :
    utxo_from_proto E ⟨amount, .builder ⟨.p2sh .none⟩⟩
      = .err .missing_recipient := by
  simp [utxo_from_proto, redeem_script_or_hash, Outcome.bind]

/-- Claim C10: for every valid but uncompressed (65-byte, 0x04-prefixed)
secp256k1 public key, `build_output` on `Builder(P2WPKH(Pubkey(k)))` fails
with `InvalidWitnessPubkeyHash` — the key parses, so the error is not
`InvalidPublicKey`; `PublicKey::wpubkey_hash` returns `None` for an
uncompressed key. -/
theorem claim_C10_uncompressed (E : Env) (amount : Nat) (k : List Nat)
    (h65 : k.length = 65) (hhead : k.head? = some 4)
    (hval : E.validPoint k = true) :
    utxo_from_proto E ⟨amount, .builder ⟨.p2wpkh (.pubkey k)⟩⟩
      = .err .invalid_witness_pubkey_hash := by
  have hpk : PublicKey.from_slice E k = .ok ⟨k, false⟩ := by
    unfold PublicKey.from_slice
    rw [if_neg, if_pos]
    · exact ⟨h65, hhead, hval⟩
    · rintro ⟨h33, -⟩
      omega
  simp [utxo_from_proto, witness_pubkey_hash_from_proto, hpk, Outcome.bind,
    PublicKey.wpubkey_hash]

theorem claim_C10_uncompressed_witness :
    utxo_from_proto modelEnv ⟨0, .builder ⟨.p2wpkh (.pubkey (4 :: List.replicate 64 9))⟩⟩
      = .err .invalid_witness_pubkey_hash :=
  claim_C10_uncompressed modelEnv 0 (4 :: List.replicate 64 9)
    (by decide) (by decide) (by decide)

/-- Claim C4: for every redeem script `s` and every valid 33-byte
compressed pubkey `k` (and any collaborator environment meeting the
primitive contract on digest lengths), supplying the preimage yields the
same `script_pubkey` as supplying the precomputed hash: P2SH with
`RedeemScript(s)` equals P2SH with `Hash(HASH160(s))`, P2WSH with
`RedeemScript(s)` equals P2WSH with `Hash(SHA256(s))`, P2PKH with
`Pubkey(k)` equals P2PKH with `Hash(HASH160(k))`, and P2WPKH with
`Pubkey(k)` equals P2WPKH with `Hash(HASH160(k))`. -/
theorem claim_C4_hash_or_preimage (E : Env) (amount : Nat) (s k : List Nat)
    (hs20 : (E.hash160 s).length = 20)
    (hs32 : (E.sha256 s).length = 32)
    (hk33 : k.length = 33)
    (hkhead : k.head? = some 2 ∨ k.head? = some 3)
    (hkval : E.validPoint k = true)
    (hk20 : (E.hash160 k).length = 20) :
    (utxo_from_proto E ⟨amount, .builder ⟨.p2sh (.redeem_script s)⟩⟩
       = utxo_from_proto E ⟨amount, .builder ⟨.p2sh (.hash (E.hash160 s))⟩⟩)
    ∧ (utxo_from_proto E ⟨amount, .builder ⟨.p2wsh (.redeem_script s)⟩⟩
       = utxo_from_proto E ⟨amount, .builder ⟨.p2wsh (.hash (E.sha256 s))⟩⟩)
    ∧ (utxo_from_proto E ⟨amount, .builder ⟨.p2pkh (.pubkey k)⟩⟩
       = utxo_from_proto E ⟨amount, .builder ⟨.p2pkh (.hash (E.hash160 k))⟩⟩)
    ∧ (utxo_from_proto E ⟨amount, .builder ⟨.p2wpkh (.pubkey k)⟩⟩
       = utxo_from_proto E ⟨amount, .builder ⟨.p2wpkh (.hash (E.hash160 k))⟩⟩) := by
  have hpk : PublicKey.from_slice E k = .ok ⟨k, true⟩ := by
    unfold PublicKey.from_slice
    rw [if_pos ⟨hk33, hkhead, hkval⟩]
  refine ⟨?_, ?_, ?_, ?_⟩ <;>
    simp [utxo_from_proto, redeem_script_or_hash, witness_redeem_script_or_hash,
      pubkey_hash_from_proto, witness_pubkey_hash_from_proto, hpk, Outcome.bind,
      PublicKey.pubkey_hash, PublicKey.wpubkey_hash, hs20, hs32, hk20]

theorem claim_C4_hash_or_preimage_witness :
    (utxo_from_proto modelEnv ⟨1, .builder ⟨.p2sh (.redeem_script [1, 2, 3])⟩⟩
       = utxo_from_proto modelEnv ⟨1, .builder ⟨.p2sh (.hash (modelEnv.hash160 [1, 2, 3]))⟩⟩)
    ∧ (utxo_from_proto modelEnv ⟨1, .builder ⟨.p2wsh (.redeem_script [1, 2, 3])⟩⟩
       = utxo_from_proto modelEnv ⟨1, .builder ⟨.p2wsh (.hash (modelEnv.sha256 [1, 2, 3]))⟩⟩)
    ∧ (utxo_from_proto modelEnv ⟨1, .builder ⟨.p2pkh (.pubkey (2 :: List.replicate 32 5))⟩⟩
       = utxo_from_proto modelEnv
           ⟨1, .builder ⟨.p2pkh (.hash (modelEnv.hash160 (2 :: List.replicate 32 5)))⟩⟩)
    ∧ (utxo_from_proto modelEnv ⟨1, .builder ⟨.p2wpkh (.pubkey (2 :: List.replicate 32 5))⟩⟩
       = utxo_from_proto modelEnv
           ⟨1, .builder ⟨.p2wpkh (.hash (modelEnv.hash160 (2 :: List.replicate 32 5)))⟩⟩) :=
  claim_C4_hash_or_preimage modelEnv 1 [1, 2, 3] (2 :: List.replicate 32 5)
    (by decide) (by decide) (by decide) (Or.inl (by decide)) (by decide) (by decide)

/-- Claim C3 (code evaluated at the failing inputs): when
inscription-envelope construction fails, `build_output` does NOT return a
recoverable typed error as the spec requires — the `ordinal_inscribe` arm
calls `.unwrap()` and the `brc20_inscribe` arm calls
`.expect("invalid BRC20 transfer construction")` on the constructor
result, aborting the process. -/
theorem claim_C3_construction_panics (E : Env) :
    (∀ (amount : Nat) (ordinal : OrdinalParams) (pk : PublicKey),
      PublicKey.from_slice E ordinal.inscribe_to = .ok pk →
      E.ordinalNew ordinal.mime_type ordinal.payload pk.bytes = Option.none →
      utxo_from_proto E ⟨amount, .builder ⟨.ordinal_inscribe ordinal⟩⟩ = .panic)
    ∧ (∀ (amount : Nat) (brc20 : Brc20Params) (pk : PublicKey),
      PublicKey.from_slice E brc20.inscribe_to = .ok pk →
      E.tickerValid brc20.ticker = true →
      E.brc20New pk.bytes brc20.ticker brc20.transfer_amount = Option.none →
      utxo_from_proto E ⟨amount, .builder ⟨.brc20_inscribe brc20⟩⟩ = .panic) := by
  constructor
  · intro amount ordinal pk hpk hfail
    simp [utxo_from_proto, hpk, Outcome.bind, hfail]
  · intro amount brc20 pk hpk ht hfail
    simp [utxo_from_proto, hpk, Outcome.bind, ht, hfail]

set_option maxRecDepth 4000 in
theorem claim_C3_construction_panics_witness :
    utxo_from_proto modelEnv
      ⟨9, .builder ⟨.ordinal_inscribe
        ⟨2 :: List.replicate 32 5, "m", List.replicate 521 0⟩⟩⟩ = .panic :=
  (claim_C3_construction_panics modelEnv).1 9
    ⟨2 :: List.replicate 32 5, "m", List.replicate 521 0⟩
    ⟨2 :: List.replicate 32 5, true⟩ (by decide) (by decide)

/-- Claim C6: for every amount and address byte string, a successful
resolver result never carries an `Address` recipient, and the builder
dispatch on an `Address` recipient equals one recursion into the dispatch
on the resolver output (one hop, hence termination — the Lean definition
`utxo_from_proto` is total with `recipientRank` as its measure). -/
theorem claim_C6_single_hop (E : Env) (amount : Nat) (addr : List Nat)
    (out : Output) (h : output_from_address E amount addr = .ok out) :
    (∀ a, out.to_recipient ≠ .from_address a)
    ∧ utxo_from_proto E ⟨amount, .from_address addr⟩ = utxo_from_proto E out := by
  obtain ⟨b, hb, -⟩ := output_from_address_shape E amount addr out h
  refine ⟨?_, ?_⟩
  · intro a hc
    rw [hb] at hc
    cases hc
  · rw [utxo_from_proto_address, h]

theorem claim_C6_single_hop_witness :
    utxo_from_proto modelEnv ⟨5, .from_address [1]⟩
      = utxo_from_proto modelEnv
          ⟨5, .builder ⟨.p2pkh (.hash (List.replicate 20 7))⟩⟩ :=
  (claim_C6_single_hop modelEnv 5 [1]
    ⟨5, .builder ⟨.p2pkh (.hash (List.replicate 20 7))⟩⟩ rfl).2

/-- Shape of every successful builder-variant result: the script is
non-empty, the control-block and taproot-payload fields are empty for
non-inscription variants, and for inscription variants they are the
engine-produced control block and leaf script. -/
theorem builder_txout_shape (E : Env) (amount : Nat) (v : BuilderVariant)
    (t : TxOut) (h : utxo_from_proto E ⟨amount, .builder ⟨v⟩⟩ = .ok t) :
    t.script_pubkey ≠ []
    ∧ (isInscribeVariant v = false → t.control_block = [] ∧ t.taproot_payload = [])
    ∧ (isInscribeVariant v = true →
        (∃ m p k i, E.ordinalNew m p k = some i
            ∧ t.control_block = i.controlBlock ∧ t.taproot_payload = i.program)
        ∨ (∃ k tk a i, E.brc20New k tk a = some i
            ∧ t.control_block = i.controlBlock ∧ t.taproot_payload = i.program)) := by
  cases v with
  | p2sh s_or_h =>
    rcases hx : redeem_script_or_hash E s_or_h with a | e | -
    · simp [utxo_from_proto, hx, Outcome.bind, finishTxOut, NO_CONTROL_BLOCK,
        NO_TAPROOT_PAYLOAD] at h
      subst h
      exact ⟨by simp [new_p2sh], by simp, by simp [isInscribeVariant]⟩
    · simp [utxo_from_proto, hx, Outcome.bind] at h
    · simp [utxo_from_proto, hx, Outcome.bind] at h
  | p2pkh p_or_h =>
    rcases hx : pubkey_hash_from_proto E p_or_h with a | e | -
    · simp [utxo_from_proto, hx, Outcome.bind, finishTxOut, NO_CONTROL_BLOCK,
        NO_TAPROOT_PAYLOAD] at h
      subst h
      exact ⟨by simp [new_p2pkh], by simp, by simp [isInscribeVariant]⟩
    · simp [utxo_from_proto, hx, Outcome.bind] at h
    · simp [utxo_from_proto, hx, Outcome.bind] at h
  | p2wsh s_or_h =>
    rcases hx : witness_redeem_script_or_hash E s_or_h with a | e | -
    · simp [utxo_from_proto, hx, Outcome.bind, finishTxOut, NO_CONTROL_BLOCK,
        NO_TAPROOT_PAYLOAD] at h
      subst h
      exact ⟨by simp [new_v0_p2wsh], by simp, by simp [isInscribeVariant]⟩
    · simp [utxo_from_proto, hx, Outcome.bind] at h
    · simp [utxo_from_proto, hx, Outcome.bind] at h
  | p2wpkh p_or_h =>
    rcases hx : witness_pubkey_hash_from_proto E p_or_h with a | e | -
    · simp [utxo_from_proto, hx, Outcome.bind, finishTxOut, NO_CONTROL_BLOCK,
        NO_TAPROOT_PAYLOAD] at h
      subst h
      exact ⟨by simp [new_v0_p2wpkh], by simp, by simp [isInscribeVariant]⟩
    · simp [utxo_from_proto, hx, Outcome.bind] at h
    · simp [utxo_from_proto, hx, Outcome.bind] at h
  | p2tr_key_path pubkey =>
    rcases hx : PublicKey.from_slice E pubkey with pk | e | -
    · simp [utxo_from_proto, hx, Outcome.bind, finishTxOut, NO_CONTROL_BLOCK,
        NO_TAPROOT_PAYLOAD] at h
      subst h
      exact ⟨by simp [new_v1_p2tr], by simp, by simp [isInscribeVariant]⟩
    · simp [utxo_from_proto, hx, Outcome.bind] at h
    · simp [utxo_from_proto, hx, Outcome.bind] at h
  | p2tr_script_path complex =>
    rcases hn : (if complex.node_hash.length = 32 then Outcome.ok complex.node_hash
        else Outcome.err Err.invalid_taproot_root) with a | e | -
    · rcases hx : PublicKey.from_slice E complex.public_key with pk | e | -
      · simp [utxo_from_proto, hn, hx, Outcome.bind, finishTxOut, NO_CONTROL_BLOCK,
          NO_TAPROOT_PAYLOAD] at h
        subst h
        exact ⟨by simp [new_v1_p2tr], by simp, by simp [isInscribeVariant]⟩
      · simp [utxo_from_proto, hn, hx, Outcome.bind] at h
      · simp [utxo_from_proto, hn, hx, Outcome.bind] at h
    · simp [utxo_from_proto, hn, Outcome.bind] at h
    · simp [utxo_from_proto, hn, Outcome.bind] at h
  | ordinal_inscribe ordinal =>
    rcases hx : PublicKey.from_slice E ordinal.inscribe_to with pk | e | -
    · rcases hnft : E.ordinalNew ordinal.mime_type ordinal.payload pk.bytes with - | nft
      · simp [utxo_from_proto, hx, hnft, Outcome.bind] at h
      · simp [utxo_from_proto, hx, hnft, Outcome.bind, finishTxOut] at h
        subst h
        refine ⟨by simp [new_v1_p2tr], by simp [isInscribeVariant], fun _ => ?_⟩
        exact Or.inl ⟨ordinal.mime_type, ordinal.payload, pk.bytes, nft, hnft, rfl, rfl⟩
    · simp [utxo_from_proto, hx, Outcome.bind] at h
    · simp [utxo_from_proto, hx, Outcome.bind] at h
  | brc20_inscribe brc20 =>
    rcases hx : PublicKey.from_slice E brc20.inscribe_to with pk | e | -
    · rcases ht : E.tickerValid brc20.ticker with - | -
      · simp [utxo_from_proto, hx, ht, Outcome.bind] at h
      · rcases hi : E.brc20New pk.bytes brc20.ticker brc20.transfer_amount with - | i
        · simp [utxo_from_proto, hx, ht, hi, Outcome.bind] at h
        · simp [utxo_from_proto, hx, ht, hi, Outcome.bind, finishTxOut] at h
          subst h
          refine ⟨by simp [new_v1_p2tr], by simp [isInscribeVariant], fun _ => ?_⟩
          exact Or.inr ⟨pk.bytes, brc20.ticker, brc20.transfer_amount, i, hi, rfl, rfl⟩
    · simp [utxo_from_proto, hx, Outcome.bind] at h
    · simp [utxo_from_proto, hx, Outcome.bind] at h
  | none =>
    simp [utxo_from_proto] at h

/-- Claim C5 counterexample: `build_output` succeeds on an
`ExplicitScript` recipient whose byte string is empty, returning a `TxOut`
with an EMPTY `script_pubkey` — refuting "non-empty byte string on
success" for the `ExplicitScript` path. -/
theorem claim_C5_counterexample :
    utxo_from_proto modelEnv ⟨7, .script_pubkey []⟩ = .ok ⟨7, [], [], []⟩ := by
  simp [utxo_from_proto, finishTxOut, NO_CONTROL_BLOCK, NO_TAPROOT_PAYLOAD]

/-- Claim C5 (amended): on every success whose recipient is not
`ExplicitScript`, the `script_pubkey` of the returned `TxOut` is
non-empty; on the `ExplicitScript` path it is the caller-supplied byte
string verbatim, which may be empty. -/
theorem claim_C5_amended_nonempty (E : Env) (output : Output) (t : TxOut)
    (hok : utxo_from_proto E output = .ok t)
    (hns : ∀ s, output.to_recipient ≠ .script_pubkey s) :
    t.script_pubkey ≠ [] := by
  obtain ⟨amount, rec⟩ := output
  cases rec with
  | script_pubkey s => exact absurd rfl (hns s)
  | builder b =>
    obtain ⟨v⟩ := b
    exact (builder_txout_shape E amount v t hok).1
  | from_address addr =>
    rw [utxo_from_proto_address] at hok
    rcases hres : output_from_address E amount addr with proto | e | -
    · rw [hres] at hok
      obtain ⟨b, hb, -⟩ := output_from_address_shape E amount addr proto hres
      obtain ⟨pamount, prec⟩ := proto
      obtain ⟨v⟩ := b
      dsimp only at hb
      subst hb
      exact (builder_txout_shape E pamount v t hok).1
    · rw [hres] at hok
      cases hok
    · rw [hres] at hok
      cases hok
  | none =>
    rw [utxo_from_proto] at hok
    cases hok

theorem claim_C5_amended_nonempty_witness :
    (⟨1000, 0 :: 20 :: List.replicate 20 0, [], []⟩ : TxOut).script_pubkey ≠ [] :=
  claim_C5_amended_nonempty modelEnv
    ⟨1000, .builder ⟨.p2wpkh (.hash (List.replicate 20 0))⟩⟩
    ⟨1000, 0 :: 20 :: List.replicate 20 0, [], []⟩
    (by simp [utxo_from_proto, witness_pubkey_hash_from_proto, new_v0_p2wpkh,
      finishTxOut, NO_CONTROL_BLOCK, NO_TAPROOT_PAYLOAD, Outcome.bind])
    (fun s hc => by simp at hc)

/-- Claim C7: on every success, `control_block` and `taproot_payload` are
populated (non-empty, given the engine contract that control blocks and
leaf scripts are non-empty) if and only if the recipient resolved to an
`OrdinalInscribe` or `BRC20Inscribe` builder variant; on every other
successful path both fields are empty. -/
theorem claim_C7_inscription_fields (E : Env) (output : Output) (t : TxOut)
    (hord : ∀ m p k i, E.ordinalNew m p k = some i →
      i.controlBlock ≠ [] ∧ i.program ≠ [])
    (hbrc : ∀ k tk a i, E.brc20New k tk a = some i →
      i.controlBlock ≠ [] ∧ i.program ≠ [])
    (hok : utxo_from_proto E output = .ok t) :
    (resolvesToInscribe E output = true →
      t.control_block ≠ [] ∧ t.taproot_payload ≠ [])
    ∧ (resolvesToInscribe E output = false →
      t.control_block = [] ∧ t.taproot_payload = []) := by
  obtain ⟨amount, rec⟩ := output
  cases rec with
  | script_pubkey s =>
    rw [utxo_from_proto] at hok
    cases hok
    constructor
    · intro hT
      simp [resolvesToInscribe] at hT
    · intro hF
      exact ⟨rfl, rfl⟩
  | builder b =>
    obtain ⟨v⟩ := b
    have H := builder_txout_shape E amount v t hok
    have hrw : resolvesToInscribe E ⟨amount, .builder ⟨v⟩⟩ = isInscribeVariant v := by
      simp [resolvesToInscribe]
    rw [hrw]
    cases hiv : isInscribeVariant v with
    | false =>
      exact ⟨by simp, fun _ => H.2.1 hiv⟩
    | true =>
      refine ⟨fun _ => ?_, by simp⟩
      rcases H.2.2 hiv with ⟨m, p, k, i, hi, hc, hp⟩ | ⟨k, tk, a, i, hi, hc, hp⟩
      · obtain ⟨h1, h2⟩ := hord m p k i hi
        rw [hc, hp]
        exact ⟨h1, h2⟩
      · obtain ⟨h1, h2⟩ := hbrc k tk a i hi
        rw [hc, hp]
        exact ⟨h1, h2⟩
  | from_address addr =>
    rw [utxo_from_proto_address] at hok
    rcases hres : output_from_address E amount addr with proto | e | -
    · rw [hres] at hok
      obtain ⟨b, hb, hni⟩ := output_from_address_shape E amount addr proto hres
      obtain ⟨pamount, prec⟩ := proto
      obtain ⟨v⟩ := b
      dsimp only at hb hni
      subst hb
      have H := builder_txout_shape E pamount v t hok
      have hrw : resolvesToInscribe E ⟨amount, .from_address addr⟩ = false := by
        simp [resolvesToInscribe, hres, hni]
      rw [hrw]
      exact ⟨by simp, fun _ => H.2.1 hni⟩
    · rw [hres] at hok
      cases hok
    · rw [hres] at hok
      cases hok
  | none =>
    rw [utxo_from_proto] at hok
    cases hok

set_option maxRecDepth 4000 in
theorem claim_C7_inscription_fields_witness :
    (resolvesToInscribe modelEnv
        ⟨1, .builder ⟨.ordinal_inscribe ⟨2 :: List.replicate 32 5, "m", [5]⟩⟩⟩ = true →
      (⟨1, 81 :: 32 :: List.replicate 32 7,
          192 :: 2 :: List.replicate 31 5, [106, 5]⟩ : TxOut).control_block ≠ []
      ∧ (⟨1, 81 :: 32 :: List.replicate 32 7,
          192 :: 2 :: List.replicate 31 5, [106, 5]⟩ : TxOut).taproot_payload ≠ [])
    ∧ (resolvesToInscribe modelEnv
        ⟨1, .builder ⟨.ordinal_inscribe ⟨2 :: List.replicate 32 5, "m", [5]⟩⟩⟩ = false →
      (⟨1, 81 :: 32 :: List.replicate 32 7,
          192 :: 2 :: List.replicate 31 5, [106, 5]⟩ : TxOut).control_block = []
      ∧ (⟨1, 81 :: 32 :: List.replicate 32 7,
          192 :: 2 :: List.replicate 31 5, [106, 5]⟩ : TxOut).taproot_payload = []) :=
  claim_C7_inscription_fields modelEnv
    ⟨1, .builder ⟨.ordinal_inscribe ⟨2 :: List.replicate 32 5, "m", [5]⟩⟩⟩
    ⟨1, 81 :: 32 :: List.replicate 32 7, 192 :: 2 :: List.replicate 31 5, [106, 5]⟩
    (by
      intro m p k i hi
      simp only [modelEnv] at hi
      unfold modelOrdinalNew at hi
      split at hi
      · cases hi
        exact ⟨by simp, by simp⟩
      · cases hi)
    (by
      intro k tk a i hi
      simp only [modelEnv] at hi
      unfold modelBrc20New at hi
      cases hi
      exact ⟨by simp, by simp⟩)
    (by
      unfold utxo_from_proto
      decide)

end WalletCore
